import Mathlib

/-
Verification development for the cnmaps boundary-resolution core
(src/cnmaps/maps.py): the administrative-record resolver `get_adm_maps`,
the name projection `get_adm_names`, the geojson loader `read_mapjson`,
and the `MapPolygon` algebra.  Each Python function is shallowly embedded
as an executable Lean definition; sqlite rows become a list of `Row`
values and the exact-match SQL predicates become Boolean filters.
-/

set_option maxHeartbeats 1000000

deriving instance DecidableEq for Except

namespace Cnmaps

/-! ### Data model of the sqlite ADMINISTRATIVE table -/

/-- One row of the ADMINISTRATIVE table.  Every column is nullable
(`Option String`); `path` is the geometry file reference. -/
structure Row where
  country : Option String
  province : Option String
  city : Option String
  district : Option String
  level : Option String
  source : Option String
  kind : Option String
  path : Option String
deriving DecidableEq

/-- Caller criteria of `get_adm_maps`, one field per keyword parameter,
with the source's Python defaults. -/
structure Criteria where
  province : Option String := none
  city : Option String := none
  district : Option String := none
  level : Option String := none
  country : Option String := some "中华人民共和国"
  source : Option String := some "高德"
  record : String := "all"
  only_polygon : Bool := false
  engine : Option String := none
deriving DecidableEq

/-- Python truthiness of an optional string: `None` and the empty string
are falsy (the source guards every criterion with `if country:` etc.). -/
def truthy : Option String → Bool
  | none => false
  | some s => !(s == "")

/-- Number of rows matching a single-column exact-match query
(`SELECT id FROM ADMINISTRATIVE WHERE 1 AND col='v'`); a NULL cell
never matches. -/
def countField (db : List Row) (get : Row → Option String) (v : String) : Nat :=
  (db.filter (fun r => get r == some v)).length

/-- Level tag derived from `country`, set in the `if country:` block
(`country_level = '国'`). -/
def country_level (c : Criteria) : Option String :=
  if truthy c.country then some "国" else none

/-- Level tag derived from `province` (`province_level = '省'`). -/
def province_level (c : Criteria) : Option String :=
  if truthy c.province then some "省" else none

/-- Level tag derived from `city` (`city_level = '市'`). -/
def city_level (c : Criteria) : Option String :=
  if truthy c.city then some "市" else none

/-- Level tag derived from `district` (`district_level = '区县'`). -/
def district_level (c : Criteria) : Option String :=
  if truthy c.district then some "区县" else none

/-- Level derivation when no level is supplied:
`level = district_level or city_level or province_level or country_level`
(Python `or` keeps the first truthy value; the tags are nonempty
strings, so this is `Option.or`). -/
def derivedLevel (c : Criteria) : Option String :=
  (district_level c).or ((city_level c).or ((province_level c).or (country_level c)))

/-- Effective level: the source runs `if not level: level = ...`, so a
falsy caller level is replaced by the derived one. -/
def effectiveLevel (c : Criteria) : Option String :=
  if truthy c.level then c.level else derivedLevel c

/-- The five value fragments of the combined query, semantically: a
`some v` entry stands for the SQL text `AND col='v'`, a `none` entry for
the empty fragment `''`. -/
structure Frags where
  country : Option String
  province : Option String
  city : Option String
  district : Option String
  source : Option String
deriving DecidableEq

/-- Fragment for one criterion: present exactly when the criterion is
truthy (`country_sql = f"AND country='{country}'"` else `''`). -/
def frag (x : Option String) : Option String :=
  if truthy x then x else none

/-- Fragments as they stand after the per-field validation blocks and
the `source` block, before level narrowing. -/
def baseFrags (c : Criteria) : Frags :=
  ⟨frag c.country, frag c.province, frag c.city, frag c.district, frag c.source⟩

/-- The `level` elif-chain of the source: maps the level token to the
stored level tag and blanks the fragments more specific than that level
(`province_sql = ''` etc.).  `none` is the `else: raise ValueError`
branch. -/
def narrow (lvl : String) (f : Frags) : Option (String × Frags) :=
  if lvl = "国" then some ("国", { f with province := none, city := none, district := none })
  else if lvl = "省" then some ("省", { f with city := none, district := none })
  else if lvl = "市" then some ("市", { f with district := none })
  else if lvl = "区" ∨ lvl = "县" ∨ lvl = "区县" ∨ lvl = "区/县" then some ("区县", f)
  else none

/-- Level narrowing lifted to the possibly-absent effective level: a
`None` level matches no branch of the elif-chain and also reaches the
`raise ValueError` arm. -/
def narrowOpt : Option String → Frags → Option (String × Frags)
  | some l, f => narrow l f
  | none, _ => none

/-- One cell test of the combined WHERE clause: an absent fragment
constrains nothing, a present one is an exact match on the column. -/
def matchFrag (fv : Option String) (cell : Option String) : Bool :=
  match fv with
  | none => true
  | some v => cell == some v

/-- The combined predicate
`WHERE level_sql country_sql province_sql city_sql district_sql source_sql`
of the final query, evaluated on one row. -/
def rowPred (tag : String) (f : Frags) (r : Row) : Bool :=
  r.level == some tag && matchFrag f.country r.country && matchFrag f.province r.province
    && matchFrag f.city r.city && matchFrag f.district r.district && matchFrag f.source r.source

/-- Stage at which a `MapNotFoundError` is raised.  The Python message
is identical at every stage; the tag only records the raise site
(the four per-field validation queries, or the final combined query). -/
inductive Stage
  | country
  | province
  | city
  | district
  | combined
deriving DecidableEq

/-- Errors of `get_adm_maps`: `MapNotFoundError` and the
`raise ValueError` of the level elif-chain (payload: the unrecognized
effective level token, `none` when level was never set). -/
inductive AdmError
  | notFound (s : Stage)
  | invalidLevel (tok : Option String)
deriving DecidableEq

/-- A gdf row converted by `row.to_dict()`: an association list from
column label to cell.  The `geometry` entry holds the row's geometry
reference (`path`) as a stand-in for the loaded polygon object, which no
resolver claim inspects. -/
abbrev OutRow := List (String × Option String)

/-- Python `row.to_dict()` on the GeoDataFrame built with columns
`['国家', '省/直辖市', '市', '区/县', '级别', '来源', '类型']` plus the
attached `geometry`. -/
def toOutRow (r : Row) : OutRow :=
  [("国家", r.country), ("省/直辖市", r.province), ("市", r.city), ("区/县", r.district),
   ("级别", r.level), ("来源", r.source), ("类型", r.kind), ("geometry", r.path)]

/-- Result shapes of `get_adm_maps`: list-of-dicts or single dict
(engine `None`), GeoDataFrame or its first row (engine `'geopandas'`),
bare geometry list or single geometry (`only_polygon`), and `pynone`
for the implicit Python `None` fall-through on unrecognized
`record`/`engine` values. -/
inductive Output
  | rows (rs : List OutRow)
  | row1 (r : OutRow)
  | geoms (gs : List (Option String))
  | geom1 (g : Option String)
  | gdfAll (rs : List Row)
  | gdfFirst (r : Row)
  | pynone
deriving DecidableEq

/-- Result shaping of the tail of `get_adm_maps` (the `record == 'all'`
/ `record == 'first'` / `only_polygon` / `engine` branches), applied to
the nonempty match list `r :: rest`. -/
def shape (c : Criteria) (r : Row) (rest : List Row) : Output :=
  if c.record = "all" then
    if c.only_polygon then .geoms ((r :: rest).map Row.path)
    else if c.engine = some "geopandas" then .gdfAll (r :: rest)
    else if c.engine = none then .rows ((r :: rest).map toOutRow)
    else .pynone
  else if c.record = "first" then
    if c.only_polygon then .geom1 r.path
    else if c.engine = some "geopandas" then .gdfFirst r
    else if c.engine = none then .row1 (toOutRow r)
    else .pynone
  else .pynone

/-- Shallow embedding of `get_adm_maps` (src/cnmaps/maps.py lines
140-297): per-field existence validation in source order, level
derivation and narrowing, the combined query, the empty-result check,
and result shaping.  Geometry attachment (`read_mapjson` per matched
row) happens between the combined query and the empty check and runs
zero times when the match list is empty, so it is folded into `shape`. -/
def get_adm_maps (db : List Row) (c : Criteria) : Except AdmError Output :=
  if truthy c.country && (countField db Row.country (c.country.getD "") == 0) then
    .error (.notFound .country)
  else if truthy c.province && (countField db Row.province (c.province.getD "") == 0) then
    .error (.notFound .province)
  else if truthy c.city && (countField db Row.city (c.city.getD "") == 0) then
    .error (.notFound .city)
  else if truthy c.district && (countField db Row.district (c.district.getD "") == 0) then
    .error (.notFound .district)
  else
    match narrowOpt (effectiveLevel c) (baseFrags c) with
    | none => .error (.invalidLevel (effectiveLevel c))
    | some (tag, f) =>
      match db.filter (rowPred tag f) with
      | [] => .error (.notFound .combined)
      | r :: rest => .ok (shape c r rest)

/-- True exactly on a successful resolution. -/
def isOkE (e : Except AdmError Output) : Bool :=
  match e with
  | .ok _ => true
  | .error _ => false

/-! ### Name projection `get_adm_names` (src lines 100-137) -/

/-- Errors of `get_adm_names`: an error propagated from `get_adm_maps`,
the `UnboundLocalError` raised at `return names` when no branch of the
level chain assigned `names`, and a `KeyError` for a dict lookup on a
missing column label. -/
inductive NamesError
  | adm (e : AdmError)
  | unboundLocal
  | keyError (k : String)
deriving DecidableEq

/-- Dict lookup `d[k]` on a `to_dict()` row. -/
def lookupCell (k : String) (d : OutRow) : Option (Option String) :=
  (d.find? (fun kv => kv.1 == k)).map (fun kv => kv.2)

/-- Criteria built from the six explicitly forwarded keyword arguments,
with the structure defaults for `record`, `only_polygon` and `engine`. -/
def mkCrit (province city district level country source : Option String) : Criteria :=
  { province := province, city := city, district := district,
    level := level, country := country, source := source }

/-- Shallow embedding of `get_adm_names`: it forwards its six criteria
to `get_adm_maps` (with that function's defaults for `db`, `record`,
`engine` and `only_polygon`), then projects one column out of the
returned list of dicts according to the raw `level` argument.  Only the
tokens `'国'`, `'省'`, `'市'`, `'区县'` assign `names`; any other value
leaves `names` unbound.  The non-list output arm is unreachable under
the defaults and also ends at `return names` with `names` unbound. -/
def get_adm_names (db : List Row) (province city district level country source : Option String) :
    Except NamesError (List (Option String)) :=
  match get_adm_maps db (mkCrit province city district level country source) with
  | .error e => .error (.adm e)
  | .ok out =>
    match out with
    | .rows data =>
      let key : Option String :=
        if level = some "国" then some "国"
        else if level = some "省" then some "省/直辖市"
        else if level = some "市" then some "市"
        else if level = some "区县" then some "区/县"
        else none
      match key with
      | none => .error .unboundLocal
      | some k =>
        match data.mapM (lookupCell k) with
        | some names => .ok names
        | none => .error (.keyError k)
    | _ => .error .unboundLocal

/-! ### Polygon algebra: `MapPolygon` (src lines 17-68)

The source class wraps `shapely.geometry.MultiPolygon`.  The underlying
geometry engine is modelled over a discrete plane: a region is a finite
set of unit cells, the engine set-operations are set union /
intersection / difference, and the engine's result typing follows
shapely 1.x / GEOS: an empty result is a bare empty `GeometryCollection`
(neither a `Polygon` nor a `MultiPolygon`), a nonempty connected result
is a `Polygon`, a nonempty disconnected result is a `MultiPolygon`.
This typing is what the `isinstance` branches of the source inspect;
the source's `intersection` has an `else` arm precisely because a
disjoint intersection produces the empty collection, while `union` and
`difference` have no `else` arm. -/

/-- A point set of the discrete plane: the cells covered by a
(multi)polygon. -/
abbrev Region := Finset (ℤ × ℤ)

/-- The `MapPolygon` value: a multi-polygon, carried by the region it
covers. -/
structure MapPolygon where
  region : Region
deriving DecidableEq

/-- The four edge-adjacent cells of a cell. -/
def nbhd (p : ℤ × ℤ) : List (ℤ × ℤ) :=
  [(p.1 + 1, p.2), (p.1 - 1, p.2), (p.1, p.2 + 1), (p.1, p.2 - 1)]

/-- One step of reachability closure inside region `r` starting from the
already-reached set `s`. -/
def grow (r : Region) (s : Region) : Region :=
  s ∪ r.filter (fun p => (nbhd p).any (fun q => decide (q ∈ s)))

/-- Iterated reachability closure. -/
def reach (r : Region) : Nat → Region → Region
  | 0, s => s
  | n + 1, s => reach r n (grow r s)

/-- Edge-connectivity of a region: from every cell, the whole region is
reachable within `r.card` growth steps.  (Empty regions are vacuously
connected; `classify` tests emptiness first.) -/
def connectedRegion (r : Region) : Bool :=
  decide (∀ p ∈ r, reach r r.card {p} = r)

/-- Result of a GEOS set operation as typed by shapely 1.x. -/
inductive SGeom
  | polygon (r : Region)
  | multipolygon (r : Region)
  | emptyCollection
deriving DecidableEq

/-- Engine result typing: empty → `GEOMETRYCOLLECTION EMPTY`, one
connected component → `Polygon`, several components →
`MultiPolygon`. -/
def classify (r : Region) : SGeom :=
  if r = ∅ then .emptyCollection
  else if connectedRegion r then .polygon r
  else .multipolygon r

/-- `MapPolygon.union`: calls the engine union, re-wraps a `Polygon`
result as `MapPolygon([p])` and a `MultiPolygon` result as
`MapPolygon(mp)`.  There is no `else` arm in the source, so any other
engine result makes the Python function return `None`. -/
def MapPolygon.union (a b : MapPolygon) : Option MapPolygon :=
  match classify (a.region ∪ b.region) with
  | .polygon p => some ⟨p⟩
  | .multipolygon mp => some ⟨mp⟩
  | .emptyCollection => none

/-- `MapPolygon.difference`: same wrapping as `union`, no `else` arm,
so an empty engine result makes the Python function return `None`. -/
def MapPolygon.difference (a b : MapPolygon) : Option MapPolygon :=
  match classify (a.region \ b.region) with
  | .polygon p => some ⟨p⟩
  | .multipolygon mp => some ⟨mp⟩
  | .emptyCollection => none

/-- `MapPolygon.intersection`: same wrapping, but with the source's
`else: return MapPolygon()` arm producing an empty multi-polygon. -/
def MapPolygon.intersection (a b : MapPolygon) : Option MapPolygon :=
  match classify (a.region ∩ b.region) with
  | .polygon p => some ⟨p⟩
  | .multipolygon mp => some ⟨mp⟩
  | .emptyCollection => some ⟨∅⟩

/-- Bounds of the region in shapely's `(minx, miny, maxx, maxy)` order;
`none` models shapely's empty bounds tuple for an empty geometry, whose
4-way unpacking in `get_extent` raises. -/
def MapPolygon.bounds (m : MapPolygon) : Option (ℚ × ℚ × ℚ × ℚ) :=
  if h : m.region.Nonempty then
    some ((((m.region.image Prod.fst).min' (h.image Prod.fst) : ℤ) : ℚ),
          (((m.region.image Prod.snd).min' (h.image Prod.snd) : ℤ) : ℚ),
          (((m.region.image Prod.fst).max' (h.image Prod.fst) : ℤ) : ℚ),
          (((m.region.image Prod.snd).max' (h.image Prod.snd) : ℤ) : ℚ))
  else none

/-- `MapPolygon.get_extent`: the source computes
`left, lower, right, upper = self.buffer(buffer).bounds` and returns
`(left, right, lower, upper)`.  For `buffer ≥ 0`, buffering (Minkowski
sum with the closed disc of that radius) enlarges the bounding box by
exactly `buffer` on every side, which is how the buffered bounds are
modelled here. -/
def MapPolygon.get_extent (m : MapPolygon) (buffer : ℚ := 2) : Option (ℚ × ℚ × ℚ × ℚ) :=
  match m.bounds with
  | none => none
  | some (left0, lower0, right0, upper0) =>
    some (left0 - buffer, right0 + buffer, lower0 - buffer, upper0 + buffer)

/-! ### Geometry loader: `read_mapjson` (src lines 71-97) -/

/-- A parsed JSON value of a geometry document's `coordinates` field:
a number or a nested array. -/
inductive JVal
  | num (q : ℚ)
  | arr (xs : List JVal)

/-- A geometry object: the `type` discriminator and the raw
`coordinates`. -/
structure GeomObj where
  type : String
  coordinates : JVal

/-- A geometry document: either wrapped in a top-level `geometry` key or
a bare geometry object (the source checks `if 'geometry' in map_json`). -/
inductive MapJson
  | wrapped (g : GeomObj)
  | bare (g : GeomObj)

/-- Unwrapping step of `read_mapjson`. -/
def unwrap : MapJson → GeomObj
  | .wrapped g => g
  | .bare g => g

/-- A simple polygon as built by `sgeom.Polygon`: its coordinate ring. -/
structure SimplePolygon where
  ring : List (ℚ × ℚ)
deriving DecidableEq

/-- Values returned by `read_mapjson`: a `MapPolygon` (ordered list of
simple polygons) or a `sgeom.MultiLineString`. -/
inductive Geometry
  | mapPolygon (polys : List SimplePolygon)
  | multiLineString (lines : List (List (ℚ × ℚ)))
deriving DecidableEq

/-- A coordinate position `[x, y, ...]`: an array whose first two
entries are numbers (extra entries are ignored, as shapely does). -/
def asPosition : JVal → Option (ℚ × ℚ)
  | .arr (.num x :: .num y :: _) => some (x, y)
  | _ => none

/-- Model of the `sgeom.Polygon` constructor on a JSON value: it
requires a sequence of positions — empty (the empty polygon) or of
length at least 3 (a closable ring); anything else raises. -/
def sgeomPolygon (j : JVal) : Except String SimplePolygon :=
  match j with
  | .arr pts =>
    match pts.mapM asPosition with
    | some ps =>
      if ps.length = 0 ∨ 3 ≤ ps.length then .ok ⟨ps⟩
      else .error "ValueError: a LinearRing must have at least 3 coordinate tuples"
    | none => .error "TypeError: not a sequence of coordinate tuples"
  | .num _ => .error "TypeError: float is not iterable"

/-- Model of the `sgeom.MultiLineString` constructor: a sequence of
lines, each a sequence of at least 2 positions. -/
def sgeomMultiLineString (j : JVal) : Except String (List (List (ℚ × ℚ))) :=
  match j with
  | .arr ls =>
    match ls.mapM (fun l =>
      match l with
      | .arr pts =>
        match pts.mapM asPosition with
        | some ps => if 2 ≤ ps.length then some ps else none
        | none => none
      | .num _ => none) with
    | some lines => .ok lines
    | none => .error "TypeError: bad MultiLineString coordinates"
  | .num _ => .error "TypeError: float is not iterable"

/-- The double loop
`for _coords in geometry['coordinates']: for coords in _coords: ...`
flattens the coordinate groups one level: `coordinates` must be an
array of arrays, and the concatenation of the inner arrays is the list
of values handed to `sgeom.Polygon` one by one. -/
def flattenGroups : JVal → Option (List JVal)
  | .arr gs =>
    gs.foldr (fun g acc =>
      match g, acc with
      | .arr rs, some t => some (rs ++ t)
      | _, _ => none) (some [])
  | .num _ => none

/-- Substring test on character lists, modelling Python's `in` on
strings. -/
def hasSub (needle : List Char) : List Char → Bool
  | [] => needle.isEmpty
  | c :: cs => needle.isPrefixOf (c :: cs) || hasSub needle cs

/-- Shallow embedding of `read_mapjson` on an already-parsed geometry
document (file reading and `json.load` are outside the model).
`Except.error` models a raised exception; `.ok none` models the Python
function falling off the end and returning `None`, which is what
happens for any `type` that neither contains `'Polygon'` nor equals
`'MultiLineString'`. -/
def read_mapjson (m : MapJson) : Except String (Option Geometry) :=
  let g := unwrap m
  if hasSub "Polygon".data g.type.data then
    match flattenGroups g.coordinates with
    | none => .error "TypeError: coordinates are not nested sequences"
    | some rs =>
      match rs.mapM sgeomPolygon with
      | .ok polys => .ok (some (.mapPolygon polys))
      | .error e => .error e
  else if g.type = "MultiLineString" then
    match sgeomMultiLineString g.coordinates with
    | .ok lines => .ok (some (.multiLineString lines))
    | .error e => .error e
  else
    .ok none

/-! ### SQL predicate construction (src lines 181-266)

The source builds its WHERE clauses by f-string interpolation.  The
string level is embedded here verbatim; `parseAtoms` / `parseFragments`
give the grammar of an exact-match conjunction as consumed by the
store: a sequence of `AND col='value'` atoms separated by single
spaces, with the value the literal text between the quotes. -/

/-- `country_sql = f"AND country='{country}'"`. -/
def country_sql_str (v : String) : String := "AND country='" ++ v ++ "'"

/-- `province_sql = f"AND province='{province}'"`. -/
def province_sql_str (v : String) : String := "AND province='" ++ v ++ "'"

/-- `city_sql = f"AND city='{city}'"`. -/
def city_sql_str (v : String) : String := "AND city='" ++ v ++ "'"

/-- `district_sql = f"AND district='{district}'"`. -/
def district_sql_str (v : String) : String := "AND district='" ++ v ++ "'"

/-- `source_sql = f"AND source='{source}'"`. -/
def source_sql_str (v : String) : String := "AND source='" ++ v ++ "'"

/-- The single-quote character. -/
def quoteChar : Char := Char.ofNat 39

/-- The equals-sign character. -/
def eqChar : Char := Char.ofNat 61

/-- The space character. -/
def spaceChar : Char := Char.ofNat 32

/-- The letters of the keyword `AND`. -/
def andChar1 : Char := Char.ofNat 65

/-- Second letter of `AND`. -/
def andChar2 : Char := Char.ofNat 78

/-- Third letter of `AND`. -/
def andChar3 : Char := Char.ofNat 68

/-- Splits a character list at the first occurrence of `stop`,
returning the part before and the part after; `none` when `stop` does
not occur. -/
def splitAt1 (stop : Char) : List Char → Option (List Char × List Char)
  | [] => none
  | c :: cs =>
    if c = stop then some ([], cs)
    else
      match splitAt1 stop cs with
      | some (pre, post) => some (c :: pre, post)
      | none => none

/-- Parses a sequence of `AND col='value'` atoms separated by single
spaces into the list of `(column, value)` exact-match conditions it
denotes; `none` when the text is not of that shape.  The fuel argument
bounds the recursion. -/
def parseAtoms : Nat → List Char → Option (List (String × String))
  | _, [] => some []
  | 0, _ :: _ => none
  | fuel + 1, a :: n :: d :: sp :: rest =>
    if a = andChar1 ∧ n = andChar2 ∧ d = andChar3 ∧ sp = spaceChar then
      match splitAt1 eqChar rest with
      | none => none
      | some (col, rest1) =>
        match rest1 with
        | [] => none
        | q :: rest2 =>
          if q = quoteChar then
            match splitAt1 quoteChar rest2 with
            | none => none
            | some (val, rest3) =>
              match rest3 with
              | [] => some [(col.asString, val.asString)]
              | sp2 :: rest4 =>
                if sp2 = spaceChar then
                  match parseAtoms fuel rest4 with
                  | none => none
                  | some atoms => some ((col.asString, val.asString) :: atoms)
                else none
          else none
    else none
  | _ + 1, _ => none

/-- The exact-match conditions denoted by a WHERE-clause fragment. -/
def parseFragments (s : String) : Option (List (String × String)) :=
  parseAtoms (s.data.length + 1) s.data

/-! ### Concrete data used by witnesses and counterexamples -/

/-- True exactly of a `MapNotFoundError` raised by one of the four
per-field validation queries (i.e. before the combined query ran). -/
def raisedBeforeCombined (e : Except AdmError Output) : Bool :=
  match e with
  | .error (.notFound .combined) => false
  | .error (.notFound _) => true
  | _ => false

/-- A country-level store row from the default source. -/
def rowSrc : Row :=
  ⟨some "中华人民共和国", none, none, none, some "国", some "高德", some "adm", some "c.json"⟩

/-- A district-level store row from the default source. -/
def rowD : Row :=
  ⟨some "中华人民共和国", some "北京市", some "北京市", some "朝阳区", some "区县",
   some "高德", some "adm", some "p.json"⟩

/-- Criteria naming a province, a city and a district while fixing the
level to `'省'`. -/
def cProv : Criteria :=
  { province := some "河北省", city := some "石家庄市", district := some "长安区",
    level := some "省" }

/-- A closed square ring as a geojson coordinate array. -/
def ringJ : JVal :=
  .arr [.arr [.num 0, .num 0], .arr [.num 1, .num 0], .arr [.num 1, .num 1], .arr [.num 0, .num 0]]

/-- A second closed square ring, disjoint from `ringJ`. -/
def ringK : JVal :=
  .arr [.arr [.num 5, .num 5], .arr [.num 6, .num 5], .arr [.num 6, .num 6], .arr [.num 5, .num 5]]

/-! ### Helper lemmas -/

/-- Rebuilding a string from its character data is the identity. -/
theorem asString_data (s : String) : s.data.asString = s := by
  cases s
  rfl

/-- `splitAt1` on a list whose first `stop` is the marked occurrence
returns the surrounding parts. -/
theorem splitAt1_of_not_mem (stop : Char) (pre post : List Char) (h : stop ∉ pre) :
    splitAt1 stop (pre ++ stop :: post) = some (pre, post) := by
  induction pre with
  | nil => simp [splitAt1]
  | cons c cs ih =>
    have hc : ¬(c = stop) := fun hh => h (by simp [hh])
    have hcs : stop ∉ cs := fun hh => h (by simp [hh])
    simp [splitAt1, hc, ih hcs]

/-- A single well-quoted atom parses to its one exact-match condition. -/
theorem parseAtoms_atom (fuel : Nat) (col v : String) (hcol : eqChar ∉ col.data)
    (hv : quoteChar ∉ v.data) :
    parseAtoms (fuel + 1)
      (andChar1 :: andChar2 :: andChar3 :: spaceChar ::
        (col.data ++ eqChar :: quoteChar :: (v.data ++ [quoteChar])))
      = some [(col, v)] := by
  simp only [parseAtoms]
  rw [splitAt1_of_not_mem eqChar col.data _ hcol]
  simp [splitAt1_of_not_mem quoteChar v.data [] hv, asString_data]

/-- A fragment `AND col='v'` with a quote-free value denotes exactly the
one intended exact-match condition. -/
theorem parseFragments_frag (col v : String) (hcol : eqChar ∉ col.data)
    (hv : quoteChar ∉ v.data) :
    parseFragments ("AND " ++ col ++ "='" ++ v ++ "'") = some [(col, v)] := by
  have hs : ("AND " ++ col ++ "='" ++ v ++ "'").data
      = andChar1 :: andChar2 :: andChar3 :: spaceChar ::
          (col.data ++ eqChar :: quoteChar :: (v.data ++ [quoteChar])) := by
    simp [String.data_append]
    decide
  unfold parseFragments
  rw [hs]
  exact parseAtoms_atom _ col v hcol hv

/-! ### Claim theorems -/

/-- C1 counterexample: with every name criterion absent (`country=None`
passed explicitly) and no level, the store still holds a record matching
the remaining `source` filter, yet `get_adm_maps` raises the
invalid-level `ValueError` on the underived `None` level instead of
returning the matching records — refuting the claim that the request is
then unconstrained by hierarchy tier and returns all records matching
the remaining filters. -/
theorem c1_no_criteria_counterexample :
    get_adm_maps [rowSrc] { country := none, source := some "高德" }
      = .error (.invalidLevel none) := by decide

/-- C1 (amended): if no level is explicitly given, `get_adm_maps`
derives the effective level as the most specific supplied name
criterion, in priority order District > City > Province > Country; but
if no name criteria are supplied at all, derivation yields no level and
the call raises the invalid-level `ValueError` instead of returning all
records matching the remaining filters. -/
theorem c1_level_derivation (db : List Row) (c : Criteria) (h : truthy c.level = false) :
    effectiveLevel c =
      (if truthy c.district then some "区县"
       else if truthy c.city then some "市"
       else if truthy c.province then some "省"
       else if truthy c.country then some "国"
       else none)
    ∧ (truthy c.country = false → truthy c.province = false → truthy c.city = false →
        truthy c.district = false →
        get_adm_maps db c = .error (.invalidLevel none)) := by
  constructor
  · by_cases hd : truthy c.district <;> by_cases hc : truthy c.city <;>
      by_cases hp : truthy c.province <;> by_cases hn : truthy c.country <;>
      simp [effectiveLevel, h, derivedLevel, district_level, city_level, province_level,
        country_level, hd, hc, hp, hn, Option.or]
  · intro h1 h2 h3 h4
    simp [get_adm_maps, h1, h2, h3, h4, effectiveLevel, h, derivedLevel, district_level,
      city_level, province_level, country_level, narrowOpt]

/-- C1 witness: the amended theorem applied to a concrete store and
criteria with no level and no name criteria. -/
theorem c1_level_derivation_witness :
    get_adm_maps [rowSrc] { country := none, source := some "高德" }
      = .error (.invalidLevel none) :=
  (c1_level_derivation [rowSrc] { country := none, source := some "高德" } rfl).2 rfl rfl rfl rfl

/-- C2: if some supplied name field matches zero store records when
queried on that single field alone, `get_adm_maps` raises
`MapNotFoundError` at a per-field validation stage, before the combined
query; and if every supplied name field matches individually, the level
elif-chain resolves, and no record satisfies the combined narrowed
predicate, it raises `MapNotFoundError` at the combined-query stage. -/
theorem c2_notfound_stages (db : List Row) (c : Criteria) :
    (((truthy c.country = true ∧ countField db Row.country (c.country.getD "") = 0)
      ∨ (truthy c.province = true ∧ countField db Row.province (c.province.getD "") = 0)
      ∨ (truthy c.city = true ∧ countField db Row.city (c.city.getD "") = 0)
      ∨ (truthy c.district = true ∧ countField db Row.district (c.district.getD "") = 0)) →
      raisedBeforeCombined (get_adm_maps db c) = true)
    ∧ (∀ tag f,
        (truthy c.country = true → countField db Row.country (c.country.getD "") ≠ 0) →
        (truthy c.province = true → countField db Row.province (c.province.getD "") ≠ 0) →
        (truthy c.city = true → countField db Row.city (c.city.getD "") ≠ 0) →
        (truthy c.district = true → countField db Row.district (c.district.getD "") ≠ 0) →
        narrowOpt (effectiveLevel c) (baseFrags c) = some (tag, f) →
        db.filter (rowPred tag f) = [] →
        get_adm_maps db c = .error (.notFound .combined)) := by
  constructor
  · intro hdis
    by_cases h1 : (truthy c.country && (countField db Row.country (c.country.getD "") == 0)) = true
    · simp [get_adm_maps, h1, raisedBeforeCombined]
    · by_cases h2 :
        (truthy c.province && (countField db Row.province (c.province.getD "") == 0)) = true
      · simp [get_adm_maps, h1, h2, raisedBeforeCombined]
      · by_cases h3 : (truthy c.city && (countField db Row.city (c.city.getD "") == 0)) = true
        · simp [get_adm_maps, h1, h2, h3, raisedBeforeCombined]
        · by_cases h4 :
            (truthy c.district && (countField db Row.district (c.district.getD "") == 0)) = true
          · simp [get_adm_maps, h1, h2, h3, h4, raisedBeforeCombined]
          · exfalso
            simp only [Bool.and_eq_true, beq_iff_eq, not_and] at h1 h2 h3 h4
            rcases hdis with ⟨ha, hb⟩ | ⟨ha, hb⟩ | ⟨ha, hb⟩ | ⟨ha, hb⟩
            · exact h1 ha hb
            · exact h2 ha hb
            · exact h3 ha hb
            · exact h4 ha hb
  · intro tag f hc hp hci hd hnar hfil
    have h1 : (truthy c.country && (countField db Row.country (c.country.getD "") == 0))
        = false := by
      cases hcc : truthy c.country
      · simp
      · simp [beq_iff_eq]
        exact hc hcc
    have h2 : (truthy c.province && (countField db Row.province (c.province.getD "") == 0))
        = false := by
      cases hcc : truthy c.province
      · simp
      · simp [beq_iff_eq]
        exact hp hcc
    have h3 : (truthy c.city && (countField db Row.city (c.city.getD "") == 0)) = false := by
      cases hcc : truthy c.city
      · simp
      · simp [beq_iff_eq]
        exact hci hcc
    have h4 : (truthy c.district && (countField db Row.district (c.district.getD "") == 0))
        = false := by
      cases hcc : truthy c.district
      · simp
      · simp [beq_iff_eq]
        exact hd hcc
    simp [get_adm_maps, h1, h2, h3, h4, hnar, hfil]

/-- C2 witness: the per-field stage on an empty store with the default
(truthy) country criterion, and the combined stage on a store whose
country row exists but whose `source` never matches the requested one. -/
theorem c2_notfound_stages_witness :
    raisedBeforeCombined (get_adm_maps [] ({} : Criteria)) = true
    ∧ get_adm_maps [rowSrc] { country := some "中华人民共和国", source := some "测绘" }
        = .error (.notFound .combined) :=
  ⟨(c2_notfound_stages [] {}).1 (by decide),
   (c2_notfound_stages [rowSrc] { country := some "中华人民共和国", source := some "测绘" }).2
     "国" ⟨some "中华人民共和国", none, none, none, some "测绘"⟩
     (by decide) (by decide) (by decide) (by decide) (by decide) (by decide)⟩

/-- C3: for a geometry document whose `type` neither contains
`"Polygon"` nor equals `"MultiLineString"`, `read_mapjson` does not
raise a load error as the spec requires: both `if` branches are skipped
and the Python function silently returns `None` (absent data), here for
a `Point` document and a wrapped `GeometryCollection` document with
arbitrary coordinates. -/
theorem c3_unsupported_type_returns_none (coords : JVal) :
    read_mapjson (.bare ⟨"Point", coords⟩) = .ok none
    ∧ read_mapjson (.wrapped ⟨"GeometryCollection", coords⟩) = .ok none := ⟨rfl, rfl⟩

/-- C4 counterexample: `difference(A, A)` of a nonempty multi-polygon
and `union` of two empty multi-polygons produce an empty engine result,
which is neither a `Polygon` nor a `MultiPolygon`, so the branchless
tail of the source returns `None` — refuting the claim that union,
intersection and difference always return a valid multi-polygon. -/
theorem c4_closure_counterexample :
    MapPolygon.difference ⟨{(0, 0)}⟩ ⟨{(0, 0)}⟩ = none
    ∧ MapPolygon.union ⟨(∅ : Region)⟩ ⟨(∅ : Region)⟩ = none := by decide

/-- C4 (amended): `intersection` always returns a valid multi-polygon
(its `else` arm wraps the empty result); `union` and `difference`
return a valid multi-polygon whenever the underlying set result is
nonempty, and Python `None` when it is empty (e.g. `difference(A, A)`),
because their `isinstance` chain has no `else` arm. -/
theorem c4_closure_amended (a b : MapPolygon) :
    (a.intersection b).isSome = true
    ∧ (a.region ∪ b.region ≠ ∅ → (a.union b).isSome = true)
    ∧ (a.region \ b.region ≠ ∅ → (a.difference b).isSome = true) := by
  refine ⟨?_, ?_, ?_⟩
  · cases h : classify (a.region ∩ b.region) <;> simp [MapPolygon.intersection, h]
  · intro hne
    cases hcon : connectedRegion (a.region ∪ b.region) <;>
      simp [MapPolygon.union, classify, hne, hcon]
  · intro hne
    cases hcon : connectedRegion (a.region \ b.region) <;>
      simp [MapPolygon.difference, classify, hne, hcon]

/-- C4 witness: the amended theorem applied to two concrete disjoint
one-cell multi-polygons, for which all three operations succeed. -/
theorem c4_closure_witness :
    (MapPolygon.intersection ⟨{(0, 0)}⟩ ⟨{(1, 1)}⟩).isSome = true
    ∧ (MapPolygon.union ⟨{(0, 0)}⟩ ⟨{(1, 1)}⟩).isSome = true
    ∧ (MapPolygon.difference ⟨{(0, 0)}⟩ ⟨{(1, 1)}⟩).isSome = true :=
  ⟨(c4_closure_amended ⟨{(0, 0)}⟩ ⟨{(1, 1)}⟩).1,
   (c4_closure_amended ⟨{(0, 0)}⟩ ⟨{(1, 1)}⟩).2.1 (by decide),
   (c4_closure_amended ⟨{(0, 0)}⟩ ⟨{(1, 1)}⟩).2.2 (by decide)⟩

/-- C5: for two multi-polygons with disjoint regions, the engine
intersection is empty, the `else` arm of the source runs, and the
result is the valid empty multi-polygon `MapPolygon()` — not an error
and not `None`. -/
theorem c5_disjoint_intersection (a b : MapPolygon) (h : a.region ∩ b.region = ∅) :
    a.intersection b = some ⟨∅⟩ := by
  simp [MapPolygon.intersection, classify, h]

/-- C5 witness: two concrete disjoint one-cell multi-polygons. -/
theorem c5_disjoint_intersection_witness :
    MapPolygon.intersection ⟨{(0, 0)}⟩ ⟨{(5, 5)}⟩ = some ⟨∅⟩ :=
  c5_disjoint_intersection ⟨{(0, 0)}⟩ ⟨{(5, 5)}⟩ (by decide)

/-- C6: once the effective level is fixed, the final combined predicate
excludes every name criterion more specific than that level — level
`国` drops the province, city and district fragments, `省` drops city
and district, `市` drops district, while the district-tier tokens keep
all fragments — and criteria at or above the level plus `source` remain
conjoined with the level tag (an excluded `none` fragment constrains
nothing in `matchFrag`). -/
theorem c6_level_narrowing (c : Criteria) (cell : Option String) :
    (effectiveLevel c = some "国" →
      narrowOpt (effectiveLevel c) (baseFrags c)
        = some ("国", ⟨frag c.country, none, none, none, frag c.source⟩))
    ∧ (effectiveLevel c = some "省" →
      narrowOpt (effectiveLevel c) (baseFrags c)
        = some ("省", ⟨frag c.country, frag c.province, none, none, frag c.source⟩))
    ∧ (effectiveLevel c = some "市" →
      narrowOpt (effectiveLevel c) (baseFrags c)
        = some ("市", ⟨frag c.country, frag c.province, frag c.city, none, frag c.source⟩))
    ∧ (∀ l, (l = "区" ∨ l = "县" ∨ l = "区县" ∨ l = "区/县") →
        effectiveLevel c = some l →
        narrowOpt (effectiveLevel c) (baseFrags c)
          = some ("区县", ⟨frag c.country, frag c.province, frag c.city, frag c.district,
              frag c.source⟩))
    ∧ matchFrag none cell = true := by
  refine ⟨?_, ?_, ?_, ?_, rfl⟩
  · intro h
    rw [h]
    simp [narrowOpt, narrow, baseFrags]
  · intro h
    rw [h]
    simp [narrowOpt, narrow, baseFrags]
  · intro h
    rw [h]
    simp [narrowOpt, narrow, baseFrags]
  · intro l hl h
    rw [h]
    rcases hl with h1 | h1 | h1 | h1 <;> rw [h1] <;> simp [narrowOpt, narrow, baseFrags]

/-- C6 witness: criteria fixing level `省` while also supplying a city
and a district; the final predicate keeps country, province and source
and drops the city and district fragments. -/
theorem c6_level_narrowing_witness :
    narrowOpt (effectiveLevel cProv) (baseFrags cProv)
      = some ("省", ⟨frag cProv.country, frag cProv.province, none, none, frag cProv.source⟩) :=
  (c6_level_narrowing cProv none).2.1 rfl

/-- C7 counterexample: a standard GeoJSON `Polygon` asset
(`coordinates` = array of rings) and a `MultiPolygon` asset with the
same single ring do not load to equal multi-polygons: the loader
applies the doubly-nested MultiPolygon layout to both, so on the
`Polygon` asset the inner loop hands bare positions to the
`sgeom.Polygon` constructor, which raises — refuting the round-trip
claim. -/
theorem c7_roundtrip_counterexample :
    read_mapjson (.bare ⟨"Polygon", .arr [ringJ]⟩)
      = .error "TypeError: not a sequence of coordinate tuples"
    ∧ read_mapjson (.bare ⟨"MultiPolygon", .arr [.arr [ringJ]]⟩)
      = .ok (some (.mapPolygon [⟨[(0, 0), (1, 0), (1, 1), (0, 0)]⟩]))
    ∧ read_mapjson (.bare ⟨"Polygon", .arr [ringJ]⟩)
      ≠ read_mapjson (.bare ⟨"MultiPolygon", .arr [.arr [ringJ]]⟩) := by
  refine ⟨rfl, rfl, ?_⟩
  intro h
  rw [(rfl : read_mapjson (.bare ⟨"Polygon", .arr [ringJ]⟩)
    = Except.error "TypeError: not a sequence of coordinate tuples")] at h
  rw [(rfl : read_mapjson (.bare ⟨"MultiPolygon", .arr [.arr [ringJ]]⟩)
    = Except.ok (some (.mapPolygon [⟨[(0, 0), (1, 0), (1, 1), (0, 0)]⟩])))] at h
  exact Except.noConfusion h

/-- C7 (amended): the loader parses every type containing `"Polygon"`
with the MultiPolygon nesting (groups of rings, flattened one level)
and ignores the type string beyond that check, so two assets whose
coordinate groups flatten to the same ring list load to identical
multi-polygon values; the round-trip only holds when the Polygon-type
asset also uses that doubly-nested layout, a standard singly-nested
Polygon asset fails to load. -/
theorem c7_roundtrip_amended (t1 t2 : String) (c1 c2 : JVal)
    (h1 : hasSub "Polygon".data t1.data = true) (h2 : hasSub "Polygon".data t2.data = true)
    (hc : flattenGroups c1 = flattenGroups c2) :
    read_mapjson (.bare ⟨t1, c1⟩) = read_mapjson (.bare ⟨t2, c2⟩) := by
  unfold read_mapjson unwrap
  simp only [h1, h2, if_true, hc]

/-- C7 witness: a doubly-nested Polygon-type asset with two one-ring
groups and a MultiPolygon asset with one two-ring group flatten to the
same rings and load identically. -/
theorem c7_roundtrip_witness :
    read_mapjson (.bare ⟨"Polygon", .arr [.arr [ringJ], .arr [ringK]]⟩)
      = read_mapjson (.bare ⟨"MultiPolygon", .arr [.arr [ringJ, ringK]]⟩) :=
  c7_roundtrip_amended "Polygon" "MultiPolygon" (.arr [.arr [ringJ], .arr [ringK]])
    (.arr [.arr [ringJ, ringK]]) (by decide) (by decide) rfl

/-- C8: for a multi-polygon with a bounding box and a positive buffer,
`get_extent` returns the 4-tuple `(left, right, lower, upper)` obtained
by expanding the box outward by the buffer on every side; the result
satisfies `left < right` and `lower < upper` and strictly contains the
unbuffered bounding box. -/
theorem c8_get_extent (m : MapPolygon) (b x0 y0 x1 y1 : ℚ)
    (hbounds : m.bounds = some (x0, y0, x1, y1)) (hb : 0 < b) :
    m.get_extent b = some (x0 - b, x1 + b, y0 - b, y1 + b)
    ∧ x0 - b < x1 + b ∧ y0 - b < y1 + b
    ∧ x0 - b < x0 ∧ x1 < x1 + b ∧ y0 - b < y0 ∧ y1 < y1 + b := by
  have hxy : x0 ≤ x1 ∧ y0 ≤ y1 := by
    unfold MapPolygon.bounds at hbounds
    split at hbounds
    case isTrue h =>
      obtain ⟨p, hp⟩ := h
      simp only [Option.some.injEq, Prod.mk.injEq] at hbounds
      obtain ⟨h1, h2, h3, h4⟩ := hbounds
      have hx : p.1 ∈ m.region.image Prod.fst := Finset.mem_image_of_mem Prod.fst hp
      have hy : p.2 ∈ m.region.image Prod.snd := Finset.mem_image_of_mem Prod.snd hp
      constructor
      · rw [← h1, ← h3]
        exact_mod_cast le_trans (Finset.min'_le _ p.1 hx) (Finset.le_max' _ p.1 hx)
      · rw [← h2, ← h4]
        exact_mod_cast le_trans (Finset.min'_le _ p.2 hy) (Finset.le_max' _ p.2 hy)
    case isFalse => exact absurd hbounds (by simp)
  refine ⟨by simp [MapPolygon.get_extent, hbounds], ?_, ?_, ?_, ?_, ?_, ?_⟩ <;>
    linarith [hxy.1, hxy.2]

/-- C8 witness: the one-cell multi-polygon at the origin with the
default buffer 2. -/
theorem c8_get_extent_witness :
    MapPolygon.get_extent ⟨{(0, 0)}⟩ 2 = some (0 - 2, 0 + 2, 0 - 2, 0 + 2)
    ∧ (0 : ℚ) - 2 < 0 + 2 ∧ (0 : ℚ) - 2 < 0 + 2
    ∧ (0 : ℚ) - 2 < 0 ∧ (0 : ℚ) < 0 + 2 ∧ (0 : ℚ) - 2 < 0 ∧ (0 : ℚ) < 0 + 2 :=
  c8_get_extent ⟨{(0, 0)}⟩ 2 0 0 0 0 (by decide) (by norm_num)

/-- C9 counterexample: the resolver embeds criteria values into its SQL
fragments by raw interpolation, so the country value
`x' AND source='y` produces the very same fragment text as the two
separate exact-match conditions `country='x'` and `source='y'` — the
value altered the query structure, refuting the claim that no string
can do so. -/
theorem c9_injection_counterexample :
    parseFragments (country_sql_str "x' AND source='y")
      = some [("country", "x"), ("source", "y")]
    ∧ parseFragments (country_sql_str "x' AND source='y")
      ≠ some [("country", "x' AND source='y")]
    ∧ country_sql_str "x' AND source='y" = country_sql_str "x" ++ " " ++ source_sql_str "y" :=
  ⟨by decide, by decide, rfl⟩

/-- C9 (amended): for every criteria value containing no single-quote
character, each SQL fragment built by the resolver denotes exactly the
one intended exact-match condition on its column with the literal
value, so quote-free filtering is the stated exact-match conjunction;
values containing a quote can alter the query structure. -/
theorem c9_injection_amended (v : String) (hv : quoteChar ∉ v.data) :
    parseFragments (country_sql_str v) = some [("country", v)]
    ∧ parseFragments (province_sql_str v) = some [("province", v)]
    ∧ parseFragments (city_sql_str v) = some [("city", v)]
    ∧ parseFragments (district_sql_str v) = some [("district", v)]
    ∧ parseFragments (source_sql_str v) = some [("source", v)] :=
  ⟨parseFragments_frag "country" v (by decide) hv,
   parseFragments_frag "province" v (by decide) hv,
   parseFragments_frag "city" v (by decide) hv,
   parseFragments_frag "district" v (by decide) hv,
   parseFragments_frag "source" v (by decide) hv⟩

/-- C9 witness: the quote-free value `北京市` embeds as exactly one
exact-match condition per fragment. -/
theorem c9_injection_witness :
    parseFragments (country_sql_str "北京市") = some [("country", "北京市")] :=
  (c9_injection_amended "北京市" (by decide)).1

/-- C10: `get_adm_maps` accepts the tokens `'区'` and `'县'` as the
district tier, but the projection of `get_adm_names` assigns `names`
only for the tokens `'国'`, `'省'`, `'市'` and `'区县'`; for any other
`level` value (including `'区'`, `'县'` and an omitted level) the call
fails with an `UnboundLocalError` even though the underlying resolution
succeeded. -/
theorem c10_names_projection :
    (∀ f, narrow "区" f = some ("区县", f) ∧ narrow "县" f = some ("区县", f))
    ∧ (∀ (db : List Row) (province city district level country source : Option String),
        isOkE (get_adm_maps db (mkCrit province city district level country source)) = true →
        level ≠ some "国" → level ≠ some "省" → level ≠ some "市" → level ≠ some "区县" →
        get_adm_names db province city district level country source
          = .error .unboundLocal) := by
  constructor
  · intro f
    constructor <;> simp [narrow]
  · intro db province city district level country source h hk1 hk2 hk3 hk4
    unfold get_adm_names
    cases hres : get_adm_maps db (mkCrit province city district level country source) with
    | error e => simp [isOkE, hres] at h
    | ok out => cases out <;> simp [hk1, hk2, hk3, hk4]

/-- C10 witness: a store resolving a district query with `level='区'`;
the resolution succeeds and the name projection still fails with
`UnboundLocalError`. -/
theorem c10_names_projection_witness :
    get_adm_names [rowD] none none (some "朝阳区") (some "区") (some "中华人民共和国")
      (some "高德") = .error .unboundLocal :=
  c10_names_projection.2 [rowD] none none (some "朝阳区") (some "区") (some "中华人民共和国")
    (some "高德") (by decide) (by decide) (by decide) (by decide) (by decide)

end Cnmaps
